import Mathlib

/-!
Formal model of the Bitcoin-side atomic-swap driver of the beam wallet
(`src/wallet/swaps/bitcoin_side.cpp`), together with theorems checking the
natural-language specification against it.

The embedding is shallow: the C++ functions are translated into executable
Lean definitions.  Bytes are `Nat` values below 256, byte strings are
`List Nat`, machine integers are modelled as `Nat`/`Int` with explicit
wrap-around where the C++ can overflow.  The parts of libbitcoin the file
uses (script operation encoding, script-number encoding, SHA-256 for the
lock image) are translated here; the remaining library primitives (base58
address decoding, transaction codec, ECDSA endorsement) are abstract
function parameters, since the claims only constrain how they are invoked.
-/

namespace BeamBtc

/-! ## Bytes and little-endian limbs -/

/-- Little-endian base-256 digits of `n` (empty for 0), with an explicit
fuel argument so that the definition is structural and kernel-evaluable. -/
def natLEBytesAux : Nat → Nat → List Nat
  | 0, _ => []
  | fuel + 1, n => if n = 0 then [] else n % 256 :: natLEBytesAux fuel (n / 256)

/-- Little-endian base-256 digits of `n`; `n` itself is ample fuel. -/
def natLEBytes (n : Nat) : List Nat := natLEBytesAux n n

/-! ## libbitcoin machine operations

A `machine::operation` is an opcode together with its push payload
(`src/machine/operation.cpp` of libbitcoin v3, as used by the repository). -/

/-- An opcode byte paired with the push data it carries. -/
structure Operation where
  code : Nat
  data : List Nat
  deriving DecidableEq, Repr

/-- Operation carrying a bare opcode and no payload (`operation(opcode)`). -/
def opcodeOp (c : Nat) : Operation := ⟨c, []⟩

def opIf : Nat := 0x63
def opElse : Nat := 0x67
def opEndif : Nat := 0x68
def opDrop : Nat := 0x75
def opDup : Nat := 0x76
def opSize : Nat := 0x82
def opEqualverify : Nat := 0x88
def opChecksig : Nat := 0xac
def opSha256 : Nat := 0xa8
def opHash160 : Nat := 0xa9
def opChecklocktimeverify : Nat := 0xb1
/-- `push_positive_1` (OP_1). -/
def opPushPositive1 : Nat := 0x51

/-- libbitcoin `operation::opcode_from_size`: the nominal push opcode for a
payload of `size` bytes. -/
def opcodeFromSize (size : Nat) : Nat :=
  if size ≤ 75 then size
  else if size ≤ 255 then 0x4c
  else if size ≤ 65535 then 0x4d
  else 0x4e

/-- libbitcoin `operation::opcode_from_data`: minimal opcode selection, which
maps the single bytes 0x81 and 1..16 to the numeric opcodes. -/
def opcodeFromData (data : List Nat) (minimal : Bool) : Nat :=
  if minimal = true ∧ data.length = 1 then
    let v := data.headD 0
    if v = 0x81 then 0x4f
    else if 1 ≤ v ∧ v ≤ 16 then 0x50 + v
    else opcodeFromSize data.length
  else opcodeFromSize data.length

/-- libbitcoin `operation::is_payload`: the opcode keeps an explicit payload
exactly for `push_size_1 .. push_four_size`. -/
def isPayloadCode (code : Nat) : Prop := 1 ≤ code ∧ code ≤ 0x4e

instance (code : Nat) : Decidable (isPayloadCode code) :=
  inferInstanceAs (Decidable (1 ≤ code ∧ code ≤ 0x4e))

/-- libbitcoin `operation(data_chunk, minimal := true)`: build a push
operation from a chunk, clearing the payload when the opcode encodes the
value numerically. -/
def opFromChunk (d : List Nat) : Operation :=
  let code := opcodeFromData d true
  if isPayloadCode code then ⟨code, d⟩ else ⟨code, []⟩

/-- libbitcoin `machine::number(value).data()`: minimal little-endian
sign-magnitude script-number encoding of an `int64`. -/
def numberData (value : Int) : List Nat :=
  if value = 0 then []
  else
    let d := natLEBytes value.natAbs
    let top := d.getLastD 0
    if 0x80 ≤ top then d ++ [if value < 0 then 0x80 else 0x00]
    else if value < 0 then d.dropLast ++ [top + 0x80]
    else d

/-- libbitcoin `operation::from_string` on a decimal token: encode the value
as a minimal script number and select the minimal opcode for it. -/
def opFromNumber (value : Int) : Operation := opFromChunk (numberData value)

/-- libbitcoin `operation::to_data`: opcode byte, explicit size bytes for the
`push_one/two/four_size` opcodes, then the payload. -/
def Operation.toData (op : Operation) : List Nat :=
  op.code ::
    ((if op.code = 0x4c then [op.data.length % 256]
      else if op.code = 0x4d then
        [op.data.length % 256, op.data.length / 256 % 256]
      else if op.code = 0x4e then
        [op.data.length % 256, op.data.length / 256 % 256,
         op.data.length / 65536 % 256, op.data.length / 16777216 % 256]
      else []) ++ op.data)

/-- libbitcoin `chain::script(operations).to_data(false)`: concatenation of
the serialized operations. -/
def scriptToData (ops : List Operation) : List Nat :=
  (ops.map Operation.toData).flatten

/-! ## SHA-256

Reference implementation (FIPS 180-4), used for the lock image
(`Hash::Processor() << preimage >> lockImage` in the source is SHA-256 of
the 32 preimage bytes) and to evaluate the spec's canonical secret hash. -/

def rotr32 (n x : Nat) : Nat := ((x >>> n) ||| (x <<< (32 - n))) % 4294967296

def shaCh (x y z : Nat) : Nat := (x &&& y) ^^^ ((x ^^^ 0xffffffff) &&& z)

def shaMaj (x y z : Nat) : Nat := (x &&& y) ^^^ (x &&& z) ^^^ (y &&& z)

def bigSigma0 (x : Nat) : Nat := rotr32 2 x ^^^ rotr32 13 x ^^^ rotr32 22 x

def bigSigma1 (x : Nat) : Nat := rotr32 6 x ^^^ rotr32 11 x ^^^ rotr32 25 x

def smallSigma0 (x : Nat) : Nat := rotr32 7 x ^^^ rotr32 18 x ^^^ (x >>> 3)

def smallSigma1 (x : Nat) : Nat := rotr32 17 x ^^^ rotr32 19 x ^^^ (x >>> 10)

def shaK : List Nat :=
  [1116352408, 1899447441, 3049323471, 3921009573, 961987163,
   1508970993, 2453635748, 2870763221, 3624381080, 310598401,
   607225278, 1426881987, 1925078388, 2162078206, 2614888103,
   3248222580, 3835390401, 4022224774, 264347078, 604807628,
   770255983, 1249150122, 1555081692, 1996064986, 2554220882,
   2821834349, 2952996808, 3210313671, 3336571891, 3584528711,
   113926993, 338241895, 666307205, 773529912, 1294757372,
   1396182291, 1695183700, 1986661051, 2177026350, 2456956037,
   2730485921, 2820302411, 3259730800, 3345764771, 3516065817,
   3600352804, 4094571909, 275423344, 430227734, 506948616,
   659060556, 883997877, 958139571, 1322822218, 1537002063,
   1747873779, 1955562222, 2024104815, 2227730452, 2361852424,
   2428436474, 2756734187, 3204031479, 3329325298]

def shaH0 : List Nat :=
  [1779033703, 3144134277, 1013904242, 2773480762,
   1359893119, 2600822924, 528734635, 1541459225]

/-- Big-endian 4-byte rendering of a 32-bit word. -/
def be4 (n : Nat) : List Nat :=
  [n / 16777216 % 256, n / 65536 % 256, n / 256 % 256, n % 256]

/-- Big-endian 8-byte rendering of a 64-bit value. -/
def be8 (n : Nat) : List Nat := be4 (n / 4294967296) ++ be4 n

/-- SHA-256 padding: append 0x80, zeros to 56 mod 64, then the bit length. -/
def shaPad (msg : List Nat) : List Nat :=
  let z := (64 + 56 - (msg.length + 1) % 64) % 64
  msg ++ 0x80 :: List.replicate z 0 ++ be8 (msg.length * 8)

/-- Big-endian 32-bit words of a byte list. -/
def shaWords : List Nat → List Nat
  | b0 :: b1 :: b2 :: b3 :: rest =>
      (b0 * 16777216 + b1 * 65536 + b2 * 256 + b3) :: shaWords rest
  | _ => []

/-- Message-schedule extension: append `k` more words to the 16 block words. -/
def shaExtend : List Nat → Nat → List Nat
  | ws, 0 => ws
  | ws, k + 1 =>
      let n := ws.length
      let w := (smallSigma1 (ws.getD (n - 2) 0) + ws.getD (n - 7) 0 +
                smallSigma0 (ws.getD (n - 15) 0) + ws.getD (n - 16) 0) % 4294967296
      shaExtend (ws ++ [w]) k

/-- One compression round per `(k, w)` pair over the state `[a..h]`. -/
def shaRounds : List (Nat × Nat) → List Nat → List Nat
  | [], st => st
  | (k, w) :: rest, st =>
      let a := st.getD 0 0
      let b := st.getD 1 0
      let c := st.getD 2 0
      let d := st.getD 3 0
      let e := st.getD 4 0
      let f := st.getD 5 0
      let g := st.getD 6 0
      let h := st.getD 7 0
      let t1 := (h + bigSigma1 e + shaCh e f g + k + w) % 4294967296
      let t2 := (bigSigma0 a + shaMaj a b c) % 4294967296
      shaRounds rest [(t1 + t2) % 4294967296, a, b, c, (d + t1) % 4294967296, e, f, g]

/-- Compress one 64-byte block into the chaining state. -/
def shaBlock (hs : List Nat) (block : List Nat) : List Nat :=
  let ws := shaExtend (shaWords block) 48
  let st := shaRounds (shaK.zip ws) hs
  (hs.zip st).map fun p => (p.1 + p.2) % 4294967296

/-- Split a byte list into 64-byte chunks (fuel-driven, kernel-evaluable). -/
def chunks64Aux : Nat → List Nat → List (List Nat)
  | 0, _ => []
  | _ + 1, [] => []
  | fuel + 1, x :: xs =>
      (x :: xs).take 64 :: chunks64Aux fuel ((x :: xs).drop 64)

def chunks64 (l : List Nat) : List (List Nat) := chunks64Aux l.length l

/-- SHA-256 of a byte list. -/
def sha256 (msg : List Nat) : List Nat :=
  (((chunks64 (shaPad msg)).foldl shaBlock shaH0).map be4).flatten

/-! ## The HTLC contract script

Direct translation of the anonymous-namespace function `AtomicSwapContract`
(`bitcoin_side.cpp:30-86`): the `emplace_back` sequence, with `secretSize`
and `locktime` pushed through `operation::from_string` on their decimal
renderings (script-number encoding) and the hashes and secret hash pushed
as minimal chunks.  `secretSize` is a `size_t` and `locktime` an `int64_t`
in the source; the only call site passes `secretHash.size() = 32`. -/
def AtomicSwapContract (hashPublicKeyA hashPublicKeyB : List Nat)
    (locktime : Int) (secretHash : List Nat) (secretSize : Nat) :
    List Operation :=
  [opcodeOp opIf,
   opcodeOp opSize,
   opFromNumber (Int.ofNat secretSize),
   opcodeOp opEqualverify,
   opcodeOp opSha256,
   opFromChunk secretHash,
   opcodeOp opEqualverify,
   opcodeOp opDup,
   opcodeOp opHash160,
   opFromChunk hashPublicKeyB,
   opcodeOp opElse,
   opFromNumber locktime,
   opcodeOp opChecklocktimeverify,
   opcodeOp opDrop,
   opcodeOp opDup,
   opcodeOp opHash160,
   opFromChunk hashPublicKeyA,
   opcodeOp opEndif,
   opcodeOp opEqualverify,
   opcodeOp opChecksig]

/-! ## Data model

`SubTxIndex`, `SwapTxState` and the typed parameter store are declared in
headers that are not part of `src/` (only `bitcoin_side.cpp` is); they are
modelled from the spec (section 3). -/

/-- Modelled from the spec: `SubTxId` — the logical sub-transaction
identifiers `LOCK_TX`, `REFUND_TX`, `REDEEM_TX`, plus `BEAM_REDEEM_TX` used
as the namespace of the preimage parameter (missing `common.h`). -/
inductive SubTxID where
  | LOCK_TX
  | REFUND_TX
  | REDEEM_TX
  | BEAM_REDEEM_TX
  deriving DecidableEq, Repr

/-- Modelled from the spec: `SwapTxState` — per-subtx lifecycle
`Initial → CreatingTx → Constructed` (missing `common.h`). -/
inductive SwapTxState where
  | InitialState
  | CreatingTx
  | Constructed
  deriving DecidableEq, Repr

/-- Modelled from the spec: the typed parameter store (section 3's table),
the swap's only persistent state.  Each field is one `TxParameterID`;
per-subtx keys are functions of the `SubTxID`.  `PreImage` and
`PeerLockImage` live in the `BEAM_REDEEM_TX` scope, the output index in the
`LOCK_TX` scope, as in every access the source makes. -/
structure ParamStore where
  createTime : Option Nat
  atomicSwapAmount : Option Nat
  atomicSwapAddress : Option String
  atomicSwapPeerAddress : Option String
  atomicSwapExternalLockTime : Option Nat
  preImage : Option (List Nat)
  peerLockImage : Option (List Nat)
  externalTxID : SubTxID → Option String
  externalTxOutputIndex : Option Nat
  externalTx : SubTxID → Option String
  transactionRegistered : SubTxID → Option Bool
  state : SubTxID → Option SwapTxState

/-- Store with no parameter set. -/
def emptyStore : ParamStore :=
  ⟨none, none, none, none, none, none, none,
   fun _ => none, none, fun _ => none, fun _ => none, fun _ => none⟩

def ParamStore.setState (s : ParamStore) (sub : SubTxID) (st : SwapTxState) :
    ParamStore :=
  { s with state := fun i => if i = sub then some st else s.state i }

def ParamStore.setRegistered (s : ParamStore) (sub : SubTxID) (b : Bool) :
    ParamStore :=
  { s with transactionRegistered :=
      fun i => if i = sub then some b else s.transactionRegistered i }

def ParamStore.setExternalTxID (s : ParamStore) (sub : SubTxID) (t : String) :
    ParamStore :=
  { s with externalTxID := fun i => if i = sub then some t else s.externalTxID i }

def ParamStore.setExternalTx (s : ParamStore) (sub : SubTxID) (t : String) :
    ParamStore :=
  { s with externalTx := fun i => if i = sub then some t else s.externalTx i }

/-- Modelled from the spec: the asynchronous Bitcoin RPC surface (section
4.2), recorded as the driver's external effects.  `fundRawTransaction`'s
argument is the hex serialization of the one-output contract transaction;
it is recorded structurally as the output `(amount, contract script)`.
`createRawTransaction`'s JSON argument triple is recorded structurally; the
output value is kept in satoshi (the source serializes it divided by
`satoshi_per_bitcoin`). -/
inductive RpcCall where
  | getRawChangeAddress
  | fundRawTransaction (amount : Nat) (contractScript : List Operation)
  | signRawTransaction (hexTx : String)
  | sendRawTransaction (rawTransaction : String)
  | createRawTransaction (inputs : List (String × Nat × Nat))
      (outputs : List (String × Nat)) (locktime : Option Nat)
  | dumpPrivKey (address : String)
  | getTxOut (txID : String) (outputIndex : Nat)
  deriving DecidableEq, Repr

/-- Result of running a driver step.  `missing` models
`GetMandatoryParameter` failing (which fails the swap); `ub` marks the
dereference of an uninitialized `boost::optional` member (an assertion
failure in debug builds, undefined behaviour in release builds). -/
inductive Res (α : Type) where
  | ub
  | missing
  | ok (val : α)
  deriving DecidableEq, Repr

/-- Map over the success value of a step result. -/
def Res.map {α β : Type} (f : α → β) : Res α → Res β
  | Res.ub => Res.ub
  | Res.missing => Res.missing
  | Res.ok v => Res.ok (f v)

/-- The driver (`BitcoinSide`): role flags from the constructor, persisted
parameters behind `m_tx`, and the in-memory caches `m_SwapLockRawTx`,
`m_SwapWithdrawRawTx` and `m_SwapLockTxConfirmations` (the latter has
in-class initializer 0 in the header; the optionals start uninitialized on
every fresh driver). -/
structure Driver where
  store : ParamStore
  isInitiator : Bool
  isBtcOwner : Bool
  swapLockRawTx : Option String
  swapWithdrawRawTx : Option String
  swapLockTxConfirmations : Nat

def kBTCLockTimeSec : Nat := 2 * 24 * 60 * 60

def kBTCMinTxConfirmations : Nat := 6

/-- libbitcoin `max_input_sequence`. -/
def maxInputSequence : Nat := 0xffffffff

/-- libbitcoin `satoshi_per_bitcoin`. -/
def satoshiPerBitcoin : Nat := 100000000

/-! ## Driver operations (`BitcoinSide` member functions) -/

/-- `BitcoinSide::LoadSwapAddress`: ready iff `AtomicSwapAddress` is set;
otherwise request a change address. -/
def LoadSwapAddress (d : Driver) : Bool × List RpcCall :=
  match d.store.atomicSwapAddress with
  | none => (false, [RpcCall.getRawChangeAddress])
  | some _ => (true, [])

/-- `BitcoinSide::InitSecret`: store a freshly generated random preimage
under `PreImage / BEAM_REDEEM_TX`.  The random bytes are a parameter. -/
def InitSecret (d : Driver) (preimage : List Nat) : Driver :=
  { d with store := { d.store with preImage := some preimage } }

/-- `BitcoinSide::Initial`: load or request the swap address; if we are the
BTC owner, initialize the secret. -/
def Initial (d : Driver) (preimage : List Nat) : Bool × Driver × List RpcCall :=
  match LoadSwapAddress d with
  | (false, effs) => (false, d, effs)
  | (true, _) =>
      if d.isBtcOwner then (true, InitSecret d preimage, [])
      else (true, d, [])

/-- `BitcoinSide::InitLockTime`: `AtomicSwapExternalLockTime :=
CreateTime + kBTCLockTimeSec`. -/
def InitLockTime (d : Driver) : Res Driver :=
  match d.store.createTime with
  | none => Res.missing
  | some t =>
      Res.ok { d with store :=
        { d.store with atomicSwapExternalLockTime := some (t + kBTCLockTimeSec) } }

/-- `BitcoinSide::CreateAtomicSwapContract`: recompute the HTLC script from
the persisted parameters.  The lock image is SHA-256 of our preimage when
`PreImage / BEAM_REDEEM_TX` is set (`Hash::Processor` is SHA-256),
otherwise the mandatory `PeerLockImage`.  `addrHash` abstracts
`libbitcoin::wallet::payment_address(...).hash()` (base58 P2PKH decoding). -/
def CreateAtomicSwapContract (addrHash : String → List Nat) (d : Driver) :
    Res (List Operation) :=
  match d.store.atomicSwapExternalLockTime, d.store.atomicSwapPeerAddress,
        d.store.atomicSwapAddress with
  | some locktime, some peerSwapAddress, some swapAddress =>
      let lockImage : Option (List Nat) :=
        match d.store.preImage with
        | some preimage => some (sha256 preimage)
        | none => d.store.peerLockImage
      match lockImage with
      | none => Res.missing
      | some secretHash =>
          let senderAddress := if d.isBtcOwner then swapAddress else peerSwapAddress
          let receiverAddress := if d.isBtcOwner then peerSwapAddress else swapAddress
          Res.ok (AtomicSwapContract (addrHash senderAddress)
            (addrHash receiverAddress) (Int.ofNat locktime) secretHash
            secretHash.length)
  | _, _, _ => Res.missing

/-- `BitcoinSide::RegisterTx`: if no `TransactionRegistered` flag is
persisted for the subtx, issue `sendRawTransaction` and return the local
`isRegistered = false`; otherwise return the persisted flag with no RPC. -/
def RegisterTx (d : Driver) (rawTransaction : String) (subTxID : SubTxID) :
    Bool × List RpcCall :=
  match d.store.transactionRegistered subTxID with
  | none => (false, [RpcCall.sendRawTransaction rawTransaction])
  | some isRegistered => (isRegistered, [])

/-- The completion of `RegisterTx`'s `sendRawTransaction` call: persist
`TransactionRegistered := (txid not empty)` and, when the txid is
non-empty, `AtomicSwapExternalTxID := txid`. -/
def RegisterTxCallback (d : Driver) (subTxID : SubTxID) (txID : String) : Driver :=
  let isRegistered := !txID.isEmpty
  let s1 := d.store.setRegistered subTxID isRegistered
  { d with store := if txID.isEmpty then s1 else s1.setExternalTxID subTxID txID }

/-- `BitcoinSide::GetSwapLockTxConfirmations`: poll `getTxOut` on the
mandatory lock txid and output index. -/
def GetSwapLockTxConfirmations (d : Driver) : Res (List RpcCall) :=
  match d.store.externalTxID SubTxID.LOCK_TX, d.store.externalTxOutputIndex with
  | some txID, some outputIndex => Res.ok [RpcCall.getTxOut txID outputIndex]
  | _, _ => Res.missing

/-- `BitcoinSide::ConfirmLockTx`: wait for the peer-reported lock txid,
then poll until the cached confirmation count reaches
`kBTCMinTxConfirmations`. -/
def ConfirmLockTx (d : Driver) : Res (Bool × List RpcCall) :=
  match d.store.externalTxID SubTxID.LOCK_TX with
  | none => Res.ok (false, [])
  | some _ =>
      if d.swapLockTxConfirmations < kBTCMinTxConfirmations then
        match GetSwapLockTxConfirmations d with
        | Res.ok effs => Res.ok (false, effs)
        | Res.missing => Res.missing
        | Res.ub => Res.ub
      else Res.ok (true, [])

/-- `BitcoinSide::BuildLockTx`: in `Initial`, build the contract transaction
(one output paying `AtomicSwapAmount` to the contract script) and hand it to
`fundRawTransaction`, persisting state `CreatingTx`; otherwise report the
persisted state. -/
def BuildLockTx (addrHash : String → List Nat) (d : Driver) :
    Res (SwapTxState × Driver × List RpcCall) :=
  match (d.store.state SubTxID.LOCK_TX).getD SwapTxState.InitialState with
  | SwapTxState.InitialState =>
      match CreateAtomicSwapContract addrHash d with
      | Res.ub => Res.ub
      | Res.missing => Res.missing
      | Res.ok contractScript =>
          match d.store.atomicSwapAmount with
          | none => Res.missing
          | some swapAmount =>
              Res.ok (SwapTxState.CreatingTx,
                { d with store := d.store.setState SubTxID.LOCK_TX SwapTxState.CreatingTx },
                [RpcCall.fundRawTransaction swapAmount contractScript])
  | st => Res.ok (st, d, [])

/-- `BitcoinSide::SendLockTx`: drive the LOCK subtx; once `Constructed`,
broadcast the in-memory raw lock transaction.  The dereference
`*m_SwapLockRawTx` is `ub` when the cache was never filled (the source only
fills it in `OnSignLockTransaction` and never persists it). -/
def SendLockTx (addrHash : String → List Nat) (d : Driver) :
    Res (Bool × Driver × List RpcCall) :=
  match BuildLockTx addrHash d with
  | Res.ub => Res.ub
  | Res.missing => Res.missing
  | Res.ok (lockTxState, d1, effs) =>
      if lockTxState ≠ SwapTxState.Constructed then Res.ok (false, d1, effs)
      else
        match d1.swapLockRawTx with
        | none => Res.ub
        | some raw =>
            match RegisterTx d1 raw SubTxID.LOCK_TX with
            | (isRegistered, effs2) => Res.ok (isRegistered, d1, effs ++ effs2)

/-- `BitcoinSide::BuildWithdrawTx`: in `Initial`, issue
`createRawTransaction` spending the lock output (sequence
`max_input_sequence - 1`) to our address for `AtomicSwapAmount - 1000`
satoshi (`uint64` subtraction wraps), with the locktime argument exactly
for `REFUND_TX`, and persist `CreatingTx`; in `CreatingTx`, issue
`dumpPrivKey`; in `Constructed`, reload the in-memory raw withdraw
transaction from `AtomicSwapExternalTx` when it is uninitialized. -/
def BuildWithdrawTx (d : Driver) (subTxID : SubTxID) :
    Res (SwapTxState × Driver × List RpcCall) :=
  match (d.store.state subTxID).getD SwapTxState.InitialState with
  | SwapTxState.InitialState =>
      match d.store.atomicSwapAmount, d.store.atomicSwapAddress,
            d.store.externalTxOutputIndex, d.store.externalTxID SubTxID.LOCK_TX with
      | some amount, some swapAddress, some outputIndex, some swapLockTxID =>
          match (if subTxID = SubTxID.REFUND_TX then
                   match d.store.atomicSwapExternalLockTime with
                   | none => Res.missing
                   | some locktime => Res.ok (some locktime)
                 else Res.ok none : Res (Option Nat)) with
          | Res.ok lt =>
              Res.ok (SwapTxState.CreatingTx,
                { d with store := d.store.setState subTxID SwapTxState.CreatingTx },
                [RpcCall.createRawTransaction
                  [(swapLockTxID, outputIndex, maxInputSequence - 1)]
                  [(swapAddress,
                    (amount + 18446744073709551616 - 1000) % 18446744073709551616)] lt])
          | _ => Res.missing
      | _, _, _, _ => Res.missing
  | SwapTxState.CreatingTx =>
      match d.store.atomicSwapAddress with
      | none => Res.missing
      | some swapAddress =>
          Res.ok (SwapTxState.CreatingTx, d, [RpcCall.dumpPrivKey swapAddress])
  | SwapTxState.Constructed =>
      match d.swapWithdrawRawTx with
      | some _ => Res.ok (SwapTxState.Constructed, d, [])
      | none =>
          match d.store.externalTx subTxID with
          | none => Res.missing
          | some raw =>
              Res.ok (SwapTxState.Constructed,
                { d with swapWithdrawRawTx := some raw }, [])

/-- `BitcoinSide::SendWithdrawTx`: when no `TransactionRegistered` flag is
persisted, drive the withdraw subtx to `Constructed` first; then broadcast
`*m_SwapWithdrawRawTx` (a `ub` dereference when the cache is
uninitialized, which the flag-present path does not guard). -/
def SendWithdrawTx (d : Driver) (subTxID : SubTxID) :
    Res (Bool × Driver × List RpcCall) :=
  match d.store.transactionRegistered subTxID with
  | none =>
      match BuildWithdrawTx d subTxID with
      | Res.ub => Res.ub
      | Res.missing => Res.missing
      | Res.ok (withdrawTxState, d1, effs) =>
          if withdrawTxState ≠ SwapTxState.Constructed then Res.ok (false, d1, effs)
          else
            match d1.swapWithdrawRawTx with
            | none => Res.ub
            | some raw =>
                match RegisterTx d1 raw subTxID with
                | (isRegistered, effs2) => Res.ok (isRegistered, d1, effs ++ effs2)
  | some _ =>
      match d.swapWithdrawRawTx with
      | none => Res.ub
      | some raw =>
          match RegisterTx d raw subTxID with
          | (isRegistered, effs2) => Res.ok (isRegistered, d, effs2)

/-- `BitcoinSide::SendRefund`. -/
def SendRefund (d : Driver) : Res (Bool × Driver × List RpcCall) :=
  SendWithdrawTx d SubTxID.REFUND_TX

/-- `BitcoinSide::SendRedeem`. -/
def SendRedeem (d : Driver) : Res (Bool × Driver × List RpcCall) :=
  SendWithdrawTx d SubTxID.REDEEM_TX

/-! ## RPC completions -/

/-- `BitcoinSide::OnGetRawChangeAddress`: store the returned address unless
one is already set. -/
def OnGetRawChangeAddress (d : Driver) (result : String) : Driver :=
  match d.store.atomicSwapAddress with
  | none => { d with store := { d.store with atomicSwapAddress := some result } }
  | some _ => d

/-- `BitcoinSide::OnFundRawTransaction`: record the HTLC vout as
`changepos ? 0 : 1` under `AtomicSwapExternalTxOutputIndex / LOCK_TX` and
pass the funded hex to `signRawTransaction`. -/
def OnFundRawTransaction (d : Driver) (hexTx : String) (changePos : Int) :
    Driver × List RpcCall :=
  let valuePosition : Nat := if changePos = 0 then 1 else 0
  ({ d with store := { d.store with externalTxOutputIndex := some valuePosition } },
   [RpcCall.signRawTransaction hexTx])

/-- `BitcoinSide::OnSignLockTransaction`: cache the signed hex in
`m_SwapLockRawTx` (in memory only — it is never persisted) and set the LOCK
state to `Constructed`. -/
def OnSignLockTransaction (d : Driver) (hexResult : String) : Driver :=
  { d with swapLockRawTx := some hexResult,
           store := d.store.setState SubTxID.LOCK_TX SwapTxState.Constructed }

/-- `BitcoinSide::OnCreateWithdrawTransaction`: cache the created raw
transaction unless the cache is already initialized. -/
def OnCreateWithdrawTransaction (d : Driver) (result : String) : Driver :=
  match d.swapWithdrawRawTx with
  | some _ => d
  | none => { d with swapWithdrawRawTx := some result }

/-- The `gettxout` reply fields the handler reads: `value` is kept already
scaled and rounded to satoshi (`round(value * satoshi_per_bitcoin)`, the
only use the source makes of the double), `scriptPubKey` as decoded
bytes. -/
structure TxOutResult where
  valueSatoshi : Nat
  confirmations : Nat
  scriptPubKey : List Nat
  deriving DecidableEq, Repr

/-- `BitcoinSide::OnGetSwapLockTxConfirmations`: abort on empty result,
under-funded output (`swapAmount > outputAmount`) or a scriptPubKey that
differs from the recomputed contract script (libbitcoin script equality is
byte equality); otherwise cache `result.confirmations`. -/
def OnGetSwapLockTxConfirmations (addrHash : String → List Nat) (d : Driver)
    (result : Option TxOutResult) : Res Driver :=
  match result with
  | none => Res.ok d
  | some r =>
      match d.store.atomicSwapAmount with
      | none => Res.missing
      | some swapAmount =>
          if swapAmount > r.valueSatoshi then Res.ok d
          else
            match CreateAtomicSwapContract addrHash d with
            | Res.ub => Res.ub
            | Res.missing => Res.missing
            | Res.ok contractScript =>
                if r.scriptPubKey ≠ scriptToData contractScript then Res.ok d
                else Res.ok { d with swapLockTxConfirmations := r.confirmations }

/-! ## Local signing of the withdraw transaction -/

/-- A libbitcoin transaction, abstracted to what `OnDumpPrivateKey`
manipulates: the input scripts (input 0 receives the endorsement script)
and an opaque remainder. -/
structure BtcTx where
  inputScripts : List (List Operation)
  base : String
  deriving DecidableEq, Repr

/-- The libbitcoin primitives `OnDumpPrivateKey` relies on, abstracted:
hex/tx codec, WIF key import, compressed public-key derivation, and
`chain::script::create_endorsement` taking the signing key, the script
code, the transaction, the input index and the sighash algorithm. -/
structure SigningPrimitives where
  decodeTx : String → BtcTx
  encodeTx : BtcTx → String
  wifToSecret : String → List Nat
  secretToPubkey : List Nat → List Nat
  createEndorsement : List Nat → List Operation → BtcTx → Nat → Nat → List Nat

/-- `libbitcoin::machine::sighash_algorithm::all`. -/
def sighashAll : Nat := 1

/-- `BitcoinSide::OnDumpPrivateKey`: decode `*m_SwapWithdrawRawTx`, sign it
at input 0 with `SIGHASH_ALL` against the recomputed contract script,
install `<sig> <pubkey> OP_0` (REFUND) or `<sig> <pubkey> <secret> OP_1`
(REDEEM, `secret = PreImage / BEAM_REDEEM_TX`) as input 0's script,
persist the re-encoded hex under `AtomicSwapExternalTx` and set the state
to `Constructed`.  Returns the updated driver and the rebuilt
transaction. -/
def OnDumpPrivateKey (prim : SigningPrimitives) (addrHash : String → List Nat)
    (d : Driver) (subTxID : SubTxID) (result : String) :
    Res (Driver × BtcTx) :=
  match d.swapWithdrawRawTx with
  | none => Res.ub
  | some raw =>
      let withdrawTX := prim.decodeTx raw
      let key := prim.wifToSecret result
      match CreateAtomicSwapContract addrHash d with
      | Res.ub => Res.ub
      | Res.missing => Res.missing
      | Res.ok contractScript =>
          let sig := prim.createEndorsement key contractScript withdrawTX 0 sighashAll
          let pubkey := prim.secretToPubkey key
          let sigScript : Res (List Operation) :=
            if subTxID = SubTxID.REFUND_TX then
              Res.ok [opFromChunk sig, opFromChunk pubkey, opcodeOp 0]
            else
              match d.store.preImage with
              | none => Res.missing
              | some secret =>
                  Res.ok [opFromChunk sig, opFromChunk pubkey, opFromChunk secret,
                          opcodeOp opPushPositive1]
          match sigScript with
          | Res.ub => Res.ub
          | Res.missing => Res.missing
          | Res.ok script =>
              let withdrawTX2 :=
                { withdrawTX with inputScripts := withdrawTX.inputScripts.set 0 script }
              let raw2 := prim.encodeTx withdrawTX2
              Res.ok ({ d with
                  swapWithdrawRawTx := some raw2,
                  store := (d.store.setExternalTx subTxID raw2).setState subTxID
                    SwapTxState.Constructed }, withdrawTX2)

/-! ## Concrete fixtures used by witnesses -/

/-- A store as it stands when a lock tx is being watched: all parameters the
driver reads are present, our party owns the BTC side and the preimage. -/
def wStore : ParamStore :=
  { emptyStore with
    atomicSwapAmount := some 100000,
    atomicSwapAddress := some "ours",
    atomicSwapPeerAddress := some "peer",
    atomicSwapExternalLockTime := some 1700000000,
    preImage := some (List.replicate 32 0),
    externalTxID := fun i => if i = SubTxID.LOCK_TX then some "ff01" else none,
    externalTxOutputIndex := some 0 }

def wDriver : Driver := ⟨wStore, true, true, none, some "beef", 0⟩

def wEmptyDriver : Driver := ⟨emptyStore, false, false, none, none, 0⟩

def wAH : String → List Nat := fun s => s.length :: List.replicate 19 0

/-- The contract script the fixture store recomputes. -/
def wContract : List Operation :=
  AtomicSwapContract (wAH "ours") (wAH "peer") (Int.ofNat 1700000000)
    (sha256 (List.replicate 32 0)) (sha256 (List.replicate 32 0)).length

def wPrim : SigningPrimitives :=
  ⟨fun s => ⟨[[opcodeOp 0]], s⟩, fun t => t.base, fun _ => [7],
   fun k => k ++ [9], fun key _ _ i a => key ++ [i, a]⟩

/-- Fixture with the LOCK broadcast already registered. -/
def wRegDriver : Driver :=
  { wDriver with store := wStore.setRegistered SubTxID.LOCK_TX true }

/-- Fixture with the lock output fully confirmed. -/
def wConfDriver : Driver := { wDriver with swapLockTxConfirmations := 6 }

/-- A party that owns the BTC side but did not initiate the swap, with the
swap address already loaded. -/
def C8driver : Driver :=
  ⟨{ emptyStore with atomicSwapAddress := some "ours" }, false, true, none, none, 0⟩

/-- Persisted state of a swap that crashed right after the lock transaction
was signed: `State[LOCK_TX] = Constructed`, nothing else recorded. -/
def C9store : ParamStore :=
  { emptyStore with state :=
      fun i => if i = SubTxID.LOCK_TX then some SwapTxState.Constructed else none }

/-- Freshly reconstructed driver over `C9store`: both caches empty. -/
def C9fresh : Driver := ⟨C9store, true, true, none, none, 0⟩

/-- The original driver instance over `C9store`, whose in-memory cache still
holds the signed raw lock transaction. -/
def C9orig : Driver := { C9fresh with swapLockRawTx := some "f00d" }

def C9ah : String → List Nat := fun _ => []

/-- Persisted state of a swap that crashed after the redeem broadcast was
accepted: `TransactionRegistered[REDEEM_TX] = true`, nothing else. -/
def C10store : ParamStore :=
  { emptyStore with transactionRegistered :=
      fun i => if i = SubTxID.REDEEM_TX then some true else none }

/-- Freshly reconstructed driver over `C10store`: caches empty. -/
def C10fresh : Driver := ⟨C10store, true, true, none, none, 0⟩

/-! ## Claims -/

/-- Claim C1: for every pair of hashes, locktime, secret hash and secret
size, `AtomicSwapContract` returns exactly the opcode sequence OP_IF,
OP_SIZE, secretSize, OP_EQUALVERIFY, OP_SHA256, secretHash, OP_EQUALVERIFY,
OP_DUP, OP_HASH160, hashB, OP_ELSE, locktime, OP_CHECKLOCKTIMEVERIFY,
OP_DROP, OP_DUP, OP_HASH160, hashA, OP_ENDIF, OP_EQUALVERIFY, OP_CHECKSIG,
with secretSize and locktime pushed as minimally-encoded script numbers and
the trailing OP_EQUALVERIFY OP_CHECKSIG shared by both branches; at the
canonical input (hashA = 0x00..01, hashB = 0x00..02, locktime = 1700000000,
secretHash = SHA256 of 32 zero bytes, secretSize = 32) the serialized
script begins 63 82 01 20 88 a8 20 66 68 and ends 68 88 ac. -/
theorem C1_atomic_swap_contract (hashA hashB secretHash : List Nat)
    (locktime : Int) (secretSize : Nat) :
    AtomicSwapContract hashA hashB locktime secretHash secretSize =
      [opcodeOp opIf, opcodeOp opSize, opFromNumber (Int.ofNat secretSize),
       opcodeOp opEqualverify, opcodeOp opSha256, opFromChunk secretHash,
       opcodeOp opEqualverify, opcodeOp opDup, opcodeOp opHash160,
       opFromChunk hashB, opcodeOp opElse, opFromNumber locktime,
       opcodeOp opChecklocktimeverify, opcodeOp opDrop, opcodeOp opDup,
       opcodeOp opHash160, opFromChunk hashA, opcodeOp opEndif,
       opcodeOp opEqualverify, opcodeOp opChecksig] ∧
    (scriptToData (AtomicSwapContract (List.replicate 19 0 ++ [1])
        (List.replicate 19 0 ++ [2]) 1700000000
        (sha256 (List.replicate 32 0)) 32)).take 9 =
      [0x63, 0x82, 0x01, 0x20, 0x88, 0xa8, 0x20, 0x66, 0x68] ∧
    (scriptToData (AtomicSwapContract (List.replicate 19 0 ++ [1])
        (List.replicate 19 0 ++ [2]) 1700000000
        (sha256 (List.replicate 32 0)) 32)).drop
      ((scriptToData (AtomicSwapContract (List.replicate 19 0 ++ [1])
        (List.replicate 19 0 ++ [2]) 1700000000
        (sha256 (List.replicate 32 0)) 32)).length - 3) =
      [0x68, 0x88, 0xac] := by
  refine ⟨rfl, by set_option maxRecDepth 40000 in decide,
    by set_option maxRecDepth 40000 in decide⟩

/-- Claim C2: on a `dumpPrivKey` reply during withdraw construction the
driver signs the withdraw transaction at input index 0 with SIGHASH_ALL
using the recomputed contract script as the script-code, and installs on
input 0 exactly `sig pubkey OP_0` for REFUND_TX and
`sig pubkey secret OP_1` for REDEEM_TX, the secret being the `PreImage`
parameter of the BEAM_REDEEM_TX scope. -/
theorem C2_on_dump_private_key (prim : SigningPrimitives)
    (addrHash : String → List Nat) (d : Driver) (wif raw : String)
    (contractScript : List Operation) (secret : List Nat)
    (hraw : d.swapWithdrawRawTx = some raw)
    (hcs : CreateAtomicSwapContract addrHash d = Res.ok contractScript)
    (hsec : d.store.preImage = some secret) :
    (Res.map Prod.snd (OnDumpPrivateKey prim addrHash d SubTxID.REFUND_TX wif) =
      Res.ok { prim.decodeTx raw with
        inputScripts := (prim.decodeTx raw).inputScripts.set 0
          [opFromChunk (prim.createEndorsement (prim.wifToSecret wif)
             contractScript (prim.decodeTx raw) 0 sighashAll),
           opFromChunk (prim.secretToPubkey (prim.wifToSecret wif)),
           opcodeOp 0] }) ∧
    (Res.map Prod.snd (OnDumpPrivateKey prim addrHash d SubTxID.REDEEM_TX wif) =
      Res.ok { prim.decodeTx raw with
        inputScripts := (prim.decodeTx raw).inputScripts.set 0
          [opFromChunk (prim.createEndorsement (prim.wifToSecret wif)
             contractScript (prim.decodeTx raw) 0 sighashAll),
           opFromChunk (prim.secretToPubkey (prim.wifToSecret wif)),
           opFromChunk secret, opcodeOp opPushPositive1] }) := by
  constructor
  · simp only [OnDumpPrivateKey, hraw, hcs, Res.map]
    simp
  · simp only [OnDumpPrivateKey, hraw, hcs, hsec, Res.map]
    simp

theorem C2_witness :
    Res.map Prod.snd (OnDumpPrivateKey wPrim wAH wDriver SubTxID.REFUND_TX "wif") =
      Res.ok { wPrim.decodeTx "beef" with
        inputScripts := (wPrim.decodeTx "beef").inputScripts.set 0
          [opFromChunk (wPrim.createEndorsement (wPrim.wifToSecret "wif")
             wContract (wPrim.decodeTx "beef") 0 sighashAll),
           opFromChunk (wPrim.secretToPubkey (wPrim.wifToSecret "wif")),
           opcodeOp 0] } :=
  (C2_on_dump_private_key wPrim wAH wDriver "wif" "beef" wContract
    (List.replicate 32 0) rfl rfl rfl).1

/-- Claim C3: `OnGetSwapLockTxConfirmations` leaves the cached confirmation
count unchanged when the result is empty, when the reported satoshi value
is below `AtomicSwapAmount`, or when the decoded scriptPubKey differs from
the recomputed contract script, and caches `result.confirmations` exactly
when all three checks pass. -/
theorem C3_lock_confirmations_validation (addrHash : String → List Nat)
    (d : Driver) (r : TxOutResult) (amount : Nat)
    (contractScript : List Operation)
    (hamt : d.store.atomicSwapAmount = some amount)
    (hcs : CreateAtomicSwapContract addrHash d = Res.ok contractScript) :
    (OnGetSwapLockTxConfirmations addrHash d none = Res.ok d) ∧
    (r.valueSatoshi < amount →
      OnGetSwapLockTxConfirmations addrHash d (some r) = Res.ok d) ∧
    (r.scriptPubKey ≠ scriptToData contractScript →
      OnGetSwapLockTxConfirmations addrHash d (some r) = Res.ok d) ∧
    (amount ≤ r.valueSatoshi → r.scriptPubKey = scriptToData contractScript →
      OnGetSwapLockTxConfirmations addrHash d (some r) =
        Res.ok { d with swapLockTxConfirmations := r.confirmations }) := by
  refine ⟨rfl, ?_, ?_, ?_⟩
  · intro hlt
    simp only [OnGetSwapLockTxConfirmations, hamt]
    rw [if_pos hlt]
  · intro hne
    simp only [OnGetSwapLockTxConfirmations, hamt, hcs]
    by_cases hgt : amount > r.valueSatoshi
    · rw [if_pos hgt]
    · rw [if_neg hgt, if_pos hne]
  · intro hge hscript
    simp only [OnGetSwapLockTxConfirmations, hamt, hcs]
    rw [if_neg (by omega), if_neg (by simp [hscript])]

theorem C3_witness :
    OnGetSwapLockTxConfirmations wAH wDriver none = Res.ok wDriver ∧
    OnGetSwapLockTxConfirmations wAH wDriver
        (some ⟨100000, 3, scriptToData wContract⟩) =
      Res.ok { wDriver with swapLockTxConfirmations := 3 } ∧
    OnGetSwapLockTxConfirmations wAH wDriver (some ⟨99999, 3, []⟩) =
      Res.ok wDriver :=
  ⟨(C3_lock_confirmations_validation wAH wDriver ⟨100000, 3, scriptToData wContract⟩
      100000 wContract rfl rfl).1,
   (C3_lock_confirmations_validation wAH wDriver ⟨100000, 3, scriptToData wContract⟩
      100000 wContract rfl rfl).2.2.2 (le_refl _) rfl,
   (C3_lock_confirmations_validation wAH wDriver ⟨99999, 3, []⟩
      100000 wContract rfl rfl).2.1 (by decide)⟩

/-- Claim C4: `RegisterTx` is an idempotent broadcast: with no persisted
`TransactionRegistered` flag it issues `sendRawTransaction` and returns
false; the reply sets the flag to `txid not empty` and stores
`AtomicSwapExternalTxID` exactly for a non-empty txid; with the flag
persisted it issues no RPC and returns it, hence returning true only after
a confirmed-accepted broadcast. -/
theorem C4_register_tx_idempotent (d : Driver) (raw : String)
    (subTxID : SubTxID) (txID : String) (b : Bool) :
    (d.store.transactionRegistered subTxID = none →
      RegisterTx d raw subTxID = (false, [RpcCall.sendRawTransaction raw])) ∧
    ((RegisterTxCallback d subTxID txID).store.transactionRegistered subTxID =
      some (!txID.isEmpty)) ∧
    ((RegisterTxCallback d subTxID txID).store.externalTxID subTxID =
      if txID.isEmpty then d.store.externalTxID subTxID else some txID) ∧
    (d.store.transactionRegistered subTxID = some b →
      RegisterTx d raw subTxID = (b, [])) ∧
    ((RegisterTx d raw subTxID).1 = true →
      d.store.transactionRegistered subTxID = some true) := by
  refine ⟨?_, ?_, ?_, ?_, ?_⟩
  · intro h; simp [RegisterTx, h]
  · cases h : txID.isEmpty <;>
      simp [RegisterTxCallback, ParamStore.setRegistered,
        ParamStore.setExternalTxID, h]
  · cases h : txID.isEmpty <;>
      simp [RegisterTxCallback, ParamStore.setRegistered,
        ParamStore.setExternalTxID, h]
  · intro h; simp [RegisterTx, h]
  · intro h
    revert h
    unfold RegisterTx
    cases h : d.store.transactionRegistered subTxID with
    | none => simp
    | some v => cases v <;> simp

theorem C4_witness :
    RegisterTx wDriver "raw" SubTxID.LOCK_TX =
      (false, [RpcCall.sendRawTransaction "raw"]) ∧
    (RegisterTxCallback wDriver SubTxID.LOCK_TX "tid").store.transactionRegistered
      SubTxID.LOCK_TX = some true ∧
    RegisterTx wRegDriver "raw" SubTxID.LOCK_TX = (true, []) ∧
    wRegDriver.store.transactionRegistered SubTxID.LOCK_TX = some true :=
  ⟨(C4_register_tx_idempotent wDriver "raw" SubTxID.LOCK_TX "tid" true).1 rfl,
   (C4_register_tx_idempotent wDriver "raw" SubTxID.LOCK_TX "tid" true).2.1,
   (C4_register_tx_idempotent wRegDriver "raw" SubTxID.LOCK_TX "tid" true).2.2.2.1 rfl,
   (C4_register_tx_idempotent wRegDriver "raw" SubTxID.LOCK_TX "tid" true).2.2.2.2
     (by rw [(C4_register_tx_idempotent wRegDriver "raw" SubTxID.LOCK_TX "tid"
        true).2.2.2.1 rfl])⟩

/-- Claim C5: `OnFundRawTransaction` records the HTLC vout as 1 when
`changepos = 0` and 0 otherwise (so for changepos in 0..1 it is exactly
`1 - changepos`, always in 0..1), persisting it under
`AtomicSwapExternalTxOutputIndex` before calling `signRawTransaction`. -/
theorem C5_fund_raw_transaction_vout (d : Driver) (hexTx : String)
    (changePos : Int) :
    ((OnFundRawTransaction d hexTx changePos).1.store.externalTxOutputIndex =
      some (if changePos = 0 then 1 else 0)) ∧
    (changePos = 0 →
      (OnFundRawTransaction d hexTx changePos).1.store.externalTxOutputIndex =
        some 1) ∧
    (changePos ≠ 0 →
      (OnFundRawTransaction d hexTx changePos).1.store.externalTxOutputIndex =
        some 0) ∧
    (changePos = 0 ∨ changePos = 1 →
      (OnFundRawTransaction d hexTx changePos).1.store.externalTxOutputIndex =
        some (1 - changePos.toNat)) ∧
    ((OnFundRawTransaction d hexTx changePos).1.store.externalTxOutputIndex =
        some 1 ∨
     (OnFundRawTransaction d hexTx changePos).1.store.externalTxOutputIndex =
        some 0) ∧
    ((OnFundRawTransaction d hexTx changePos).2 =
      [RpcCall.signRawTransaction hexTx]) := by
  refine ⟨rfl, ?_, ?_, ?_, ?_, rfl⟩
  · intro h; simp [OnFundRawTransaction, h]
  · intro h; simp [OnFundRawTransaction, h]
  · rintro (h | h) <;> simp [OnFundRawTransaction, h]
  · by_cases h : changePos = 0
    · left; simp [OnFundRawTransaction, h]
    · right; simp [OnFundRawTransaction, h]

theorem C5_witness :
    (OnFundRawTransaction wDriver "aa" 0).1.store.externalTxOutputIndex =
      some 1 ∧
    (OnFundRawTransaction wDriver "aa" 1).1.store.externalTxOutputIndex =
      some 0 ∧
    (OnFundRawTransaction wDriver "aa" (-1)).1.store.externalTxOutputIndex =
      some 0 :=
  ⟨(C5_fund_raw_transaction_vout wDriver "aa" 0).2.1 rfl,
   (C5_fund_raw_transaction_vout wDriver "aa" 1).2.2.1 (by decide),
   (C5_fund_raw_transaction_vout wDriver "aa" (-1)).2.2.1 (by decide)⟩

/-- Claim C6: `ConfirmLockTx` returns false when the peer-reported lock
txid is absent; otherwise, below 6 (`kBTCMinTxConfirmations`) cached
confirmations it returns false and schedules a `getTxOut` poll, and at 6 or
more it returns true with no further poll. -/
theorem C6_confirm_lock_tx (d : Driver) (txID : String) (outputIndex : Nat) :
    kBTCMinTxConfirmations = 6 ∧
    (d.store.externalTxID SubTxID.LOCK_TX = none →
      ConfirmLockTx d = Res.ok (false, [])) ∧
    (d.store.externalTxID SubTxID.LOCK_TX = some txID →
      d.store.externalTxOutputIndex = some outputIndex →
      d.swapLockTxConfirmations < kBTCMinTxConfirmations →
      ConfirmLockTx d = Res.ok (false, [RpcCall.getTxOut txID outputIndex])) ∧
    (d.store.externalTxID SubTxID.LOCK_TX = some txID →
      kBTCMinTxConfirmations ≤ d.swapLockTxConfirmations →
      ConfirmLockTx d = Res.ok (true, [])) := by
  refine ⟨rfl, ?_, ?_, ?_⟩
  · intro h; simp [ConfirmLockTx, h]
  · intro h1 h2 h3
    simp [ConfirmLockTx, GetSwapLockTxConfirmations, h1, h2, h3]
  · intro h1 h2
    simp [ConfirmLockTx, h1, Nat.not_lt.mpr h2]

theorem C6_witness :
    ConfirmLockTx wEmptyDriver = Res.ok (false, []) ∧
    ConfirmLockTx wDriver = Res.ok (false, [RpcCall.getTxOut "ff01" 0]) ∧
    ConfirmLockTx wConfDriver = Res.ok (true, []) :=
  ⟨(C6_confirm_lock_tx wEmptyDriver "ff01" 0).2.1 rfl,
   (C6_confirm_lock_tx wDriver "ff01" 0).2.2.1 rfl rfl (by decide),
   (C6_confirm_lock_tx wConfDriver "ff01" 0).2.2.2 rfl (by decide)⟩

/-- Claim C7: for a withdraw sub-transaction in state `Initial`,
`BuildWithdrawTx` issues `createRawTransaction` with the single input
(lock txid, stored lock vout, sequence `max_input_sequence - 1`), one
output paying `AtomicSwapAmount - 1000` satoshi to our address, and a
locktime argument exactly for REFUND_TX, then sets the state to
`CreatingTx`. -/
theorem C7_build_withdraw_tx (d : Driver) (subTxID : SubTxID)
    (amount outputIndex locktime : Nat) (swapAddress swapLockTxID : String)
    (hstate : (d.store.state subTxID).getD SwapTxState.InitialState =
      SwapTxState.InitialState)
    (hamt : d.store.atomicSwapAmount = some amount)
    (hfee : 1000 ≤ amount) (hcap : amount < 18446744073709551616)
    (haddr : d.store.atomicSwapAddress = some swapAddress)
    (hout : d.store.externalTxOutputIndex = some outputIndex)
    (htxid : d.store.externalTxID SubTxID.LOCK_TX = some swapLockTxID)
    (hlt : subTxID = SubTxID.REFUND_TX →
      d.store.atomicSwapExternalLockTime = some locktime) :
    BuildWithdrawTx d subTxID =
      Res.ok (SwapTxState.CreatingTx,
        { d with store := d.store.setState subTxID SwapTxState.CreatingTx },
        [RpcCall.createRawTransaction
          [(swapLockTxID, outputIndex, maxInputSequence - 1)]
          [(swapAddress, amount - 1000)]
          (if subTxID = SubTxID.REFUND_TX then some locktime else none)]) ∧
    maxInputSequence - 1 = 4294967294 := by
  have hsub : (amount + 18446744073709551616 - 1000) % 18446744073709551616 =
      amount - 1000 := by
    have h1 : amount + 18446744073709551616 - 1000 =
        (amount - 1000) + 18446744073709551616 := by omega
    rw [h1, Nat.add_mod_right, Nat.mod_eq_of_lt (by omega)]
  refine ⟨?_, rfl⟩
  unfold BuildWithdrawTx
  rw [hstate]
  simp only [hamt, hout, htxid, haddr, hsub]
  by_cases hr : subTxID = SubTxID.REFUND_TX
  · rw [hlt hr] at *
    simp [hr, hlt hr]
  · simp [hr]

theorem C7_witness :
    BuildWithdrawTx wDriver SubTxID.REFUND_TX =
      Res.ok (SwapTxState.CreatingTx,
        { wDriver with store :=
            wStore.setState SubTxID.REFUND_TX SwapTxState.CreatingTx },
        [RpcCall.createRawTransaction [("ff01", 0, maxInputSequence - 1)]
          [("ours", 100000 - 1000)] (some 1700000000)]) ∧
    BuildWithdrawTx wDriver SubTxID.REDEEM_TX =
      Res.ok (SwapTxState.CreatingTx,
        { wDriver with store :=
            wStore.setState SubTxID.REDEEM_TX SwapTxState.CreatingTx },
        [RpcCall.createRawTransaction [("ff01", 0, maxInputSequence - 1)]
          [("ours", 100000 - 1000)] none]) :=
  ⟨(C7_build_withdraw_tx wDriver SubTxID.REFUND_TX 100000 0 1700000000
      "ours" "ff01" rfl rfl (by decide) (by decide) rfl rfl rfl
      (fun _ => rfl)).1,
   (C7_build_withdraw_tx wDriver SubTxID.REDEEM_TX 100000 0 1700000000
      "ours" "ff01" rfl rfl (by decide) (by decide) rfl rfl rfl
      (fun h => by cases h)).1⟩

/-- Claim C8, counterexample: a party with `isBtcOwner = true` and
`isInitiator = false` whose swap address is known still generates and
stores a preimage in `Initial` — `PreImage` presence does not imply
`isBtcOwner AND isInitiator`, refuting the claimed equivalence. -/
theorem C8_counterexample :
    ((Initial C8driver (List.replicate 32 7)).2.1.store.preImage =
      some (List.replicate 32 7)) ∧
    (C8driver.isBtcOwner && C8driver.isInitiator) = false := by
  exact ⟨rfl, rfl⟩

/-- Claim C8, amended: `Initial` generates and stores a preimage exactly
when the party is the BTC owner and the swap address is already known,
regardless of `isInitiator` (which the driver never consults); `PreImage`
presence therefore tracks `isBtcOwner` alone. -/
theorem C8_preimage_owner_only (d : Driver) (preimage : List Nat) :
    (Initial d preimage).2.1.store.preImage =
      if d.store.atomicSwapAddress.isSome ∧ d.isBtcOwner = true then
        some preimage
      else d.store.preImage := by
  unfold Initial LoadSwapAddress InitSecret
  cases h : d.store.atomicSwapAddress <;> cases hb : d.isBtcOwner <;> simp [h, hb]

/-- Claim C9: the crash-resume scenario the claim requires to be
effect-preserving instead hits the dereference of the uninitialized
`m_SwapLockRawTx`: with the LOCK subtx persisted as `Constructed` (and the
signed raw lock transaction never persisted anywhere), a freshly
reconstructed driver fails the `assert` and dereferences an empty optional
(`Res.ub`), while the original driver instance would have re-broadcast its
cached raw transaction. -/
theorem C9_crash_resume_diverges :
    SendLockTx C9ah C9fresh = Res.ub ∧
    SendLockTx C9ah C9orig =
      Res.ok (false, C9orig, [RpcCall.sendRawTransaction "f00d"]) := by
  exact ⟨rfl, rfl⟩

/-- Claim C10, counterexample: a freshly reconstructed driver
(`m_SwapWithdrawRawTx` uninitialized) for which `TransactionRegistered` is
already persisted skips `BuildWithdrawTx` and dereferences the
uninitialized optional in `SendWithdrawTx`. -/
theorem C10_counterexample :
    SendWithdrawTx C10fresh SubTxID.REDEEM_TX = Res.ub := rfl

theorem buildWithdrawTx_not_ub (d : Driver) (subTxID : SubTxID) :
    BuildWithdrawTx d subTxID ≠ Res.ub := by
  unfold BuildWithdrawTx
  repeat' split
  all_goals exact fun h => Res.noConfusion h

theorem buildWithdrawTx_constructed_cache (d : Driver) (subTxID : SubTxID)
    (st : SwapTxState) (d1 : Driver) (effs : List RpcCall)
    (h : BuildWithdrawTx d subTxID = Res.ok (st, d1, effs))
    (hc : st = SwapTxState.Constructed) : d1.swapWithdrawRawTx.isSome := by
  subst hc
  revert h
  unfold BuildWithdrawTx
  repeat' split
  all_goals intro h
  all_goals cases h
  all_goals simp_all

/-- Claim C10, amended: when the `TransactionRegistered` flag is absent,
`SendWithdrawTx` never dereferences an uninitialized optional — the
`Constructed` branch of `BuildWithdrawTx` reloads the cache from
`AtomicSwapExternalTx` first; with the flag already persisted, the
build is skipped and the dereference is safe only while the in-memory
cache from the registering run is still alive, so a freshly reconstructed
driver reads an uninitialized optional there. -/
theorem C10_no_ub_when_unregistered (d : Driver) (subTxID : SubTxID)
    (h : d.store.transactionRegistered subTxID = none) :
    SendWithdrawTx d subTxID ≠ Res.ub := by
  unfold SendWithdrawTx
  rw [h]
  rcases hB : BuildWithdrawTx d subTxID with _ | _ | val
  · exact absurd hB (buildWithdrawTx_not_ub d subTxID)
  · simp
  · obtain ⟨st, d1, effs⟩ := val
    by_cases hc : st = SwapTxState.Constructed
    · have hcache := buildWithdrawTx_constructed_cache d subTxID st d1 effs hB hc
      rcases hopt : d1.swapWithdrawRawTx with _ | raw
      · rw [hopt] at hcache; cases hcache
      · simp [hc, hopt]
    · simp [hc]

theorem C10_witness : SendWithdrawTx wEmptyDriver SubTxID.REDEEM_TX ≠ Res.ub :=
  C10_no_ub_when_unregistered wEmptyDriver SubTxID.REDEEM_TX rfl

end BeamBtc
